import Mathlib

/-!
Shallow embedding of the core of the `instagram-scraper-api` repository:
the pricing engine (`PricingTiers.calculate_cost`), the usage tracker
(`UsageTracker.record_usage`, `add_credits`, `get_monthly_usage`) and the
job registry (`JobManager.create_job`, `update_job_status`,
`update_progress`), together with theorems settling the spec claims.

Monetary amounts and Python floats are modelled as rationals; Python
`round(x, 4)` is modelled as round-half-to-even at 4 decimal places;
Python `datetime` values are modelled as an abstract timestamp carrying
the fields the code inspects (year, month, and a linear tick).
-/

namespace InstaScraper

/-- Abstract timestamp: the code only ever uses a timestamp for ordering,
for `strftime("%Y-%m")` (year, month) and for ISO serialisation, so we
carry year/month plus a linear tick. -/
structure Timestamp where
  year : Int
  month : Int
  tick : Int
  deriving DecidableEq, Repr

/-- `strftime("%Y-%m")` month key of a timestamp. -/
def monthKey (t : Timestamp) : Int × Int := (t.year, t.month)

/-! ## PricingTiers (src/usage_tracker.py, class PricingTiers) -/

/-- Python `min` on integers, written out so it evaluates by `decide`. -/
def pyMin (a b : Int) : Int := if a ≤ b then a else b

/-- Python `max` on integers, written out so it evaluates by `decide`. -/
def pyMax (a b : Int) : Int := if a ≤ b then b else a

/-- One entry of `PricingTiers.TIERS`. -/
structure TierInfo where
  base_price : ℚ
  monthly_cost : ℚ
  included_posts : Int
  concurrent_jobs : Int
  deriving DecidableEq, Repr

/-- `PricingTiers.TIERS` as a partial map from tier name to config
(0.01 = 1/100, 0.0075 = 3/400, 0.005 = 1/200, 37.50 = 75/2). -/
def TIERS : String → Option TierInfo
  | "starter" => some ⟨1/100, 10, 1000, 5⟩
  | "professional" => some ⟨3/400, 75/2, 5000, 20⟩
  | "enterprise" => some ⟨1/200, 100, 20000, 999⟩
  | _ => none

/-- `PricingTiers.MULTIPLIERS["comments"]` (1.25). -/
def commentsMultiplier : ℚ := 5/4

/-- `PricingTiers.MULTIPLIERS["media"]` (1.50). -/
def mediaMultiplier : ℚ := 3/2

/-- One entry of `PricingTiers.VOLUME_DISCOUNTS`. -/
structure DiscountRule where
  threshold : Int
  discount : ℚ
  deriving DecidableEq, Repr

/-- `PricingTiers.VOLUME_DISCOUNTS` in configured order
(0.90 = 9/10, 0.85 = 17/20, 0.75 = 3/4). -/
def VOLUME_DISCOUNTS : List DiscountRule :=
  [⟨10000, 9/10⟩, ⟨50000, 17/20⟩, ⟨100000, 3/4⟩]

/-- The `for discount_rule in cls.VOLUME_DISCOUNTS: if ... : *= ...; break`
loop: multiply the cost by the discount of the first rule whose threshold
`totalOverage` meets or exceeds, then stop. -/
def applyVolumeDiscount (totalOverage : Int) (cost : ℚ) : List DiscountRule → ℚ
  | [] => cost
  | r :: rs =>
    if totalOverage ≥ r.threshold then cost * r.discount
    else applyVolumeDiscount totalOverage cost rs

/-- Round half to even at integer precision (Python `round` semantics on
exact values). -/
def roundHalfEven (x : ℚ) : Int :=
  let f : Int := ⌊x⌋
  let frac : ℚ := x - f
  if frac < 1/2 then f
  else if frac > 1/2 then f + 1
  else if f % 2 = 0 then f else f + 1

/-- Python `round(x, 4)` on exact decimal values. -/
def round4 (x : ℚ) : ℚ := (roundHalfEven (x * 10000) : ℚ) / 10000

/-- Result of `PricingTiers.calculate_cost`. -/
structure CostBreakdown where
  subscription : ℚ
  overage : ℚ
  total : ℚ
  included_used : Int
  overage_posts : Int
  deriving DecidableEq, Repr

/-- The tier-resolution step of `PricingTiers.calculate_cost`
(`if tier not in cls.TIERS: tier = "professional"` then
`tier_info = cls.TIERS[tier]`): unknown tiers silently fall back to the
`professional` config. -/
def tierInfoOf (tier : String) : TierInfo :=
  match TIERS tier with
  | some ti => ti
  | none => ⟨3/400, 75/2, 5000, 20⟩

/-- The feature-multiplier step of `calculate_cost` (`overage_rate *= 1.25`
when comments are requested, then `*= 1.50` when media is requested). -/
def effectiveOverageRate (ti : TierInfo)
    (include_comments include_media : Bool) : ℚ :=
  let rate₁ := ti.base_price
  let rate₂ := if include_comments then rate₁ * commentsMultiplier else rate₁
  if include_media then rate₂ * mediaMultiplier else rate₂

/-- `PricingTiers.calculate_cost`: subscription model with included posts,
feature multipliers on the overage rate, and a first-match-wins volume
discount on the overage cost. -/
def calculate_cost (num_posts : Int) (tier : String)
    (include_comments include_media : Bool) (current_month_posts : Int) :
    CostBreakdown :=
  let tier_info := tierInfoOf tier
  let monthly_cost := tier_info.monthly_cost
  let included_posts := tier_info.included_posts
  let overage_rate := effectiveOverageRate tier_info include_comments include_media
  let posts_within_limit := pyMin num_posts (pyMax 0 (included_posts - current_month_posts))
  let overage_posts := num_posts - posts_within_limit
  let overage_cost : ℚ :=
    if overage_posts > 0 then
      let raw := (overage_posts : ℚ) * overage_rate
      let total_overage := (current_month_posts - included_posts) + overage_posts
      if total_overage > 0 then applyVolumeDiscount total_overage raw VOLUME_DISCOUNTS
      else raw
    else 0
  { subscription := monthly_cost
    overage := round4 overage_cost
    total := round4 (monthly_cost + overage_cost)
    included_used := posts_within_limit
    overage_posts := overage_posts }

/-! ## UsageTracker (src/usage_tracker.py, class UsageTracker) -/

/-- Association-list lookup (Python `dict.get`). -/
def lookupA {α : Type} (k : String) : List (String × α) → Option α
  | [] => none
  | (k', v) :: rest => if k = k' then some v else lookupA k rest

/-- Association-list update (Python `dict[k] = v`). -/
def setA {α : Type} (k : String) (v : α) : List (String × α) → List (String × α)
  | [] => [(k, v)]
  | (k', v') :: rest => if k = k' then (k, v) :: rest else (k', v') :: setA k v rest

/-- `UserAccount` dataclass (timestamps other than `billing_cycle_start`
are irrelevant to the claims and carried as a single tick). -/
structure UserAccount where
  user_id : String
  email : String
  api_keys : List String
  pricing_tier : String
  total_posts_scraped : Int
  total_spent : ℚ
  current_month_posts : Int
  current_month_cost : ℚ
  current_month_overage_cost : ℚ
  credits_balance : ℚ
  billing_cycle_start : Timestamp
  is_active : Bool
  spending_limit : Option ℚ
  subscription_paid : Bool
  deriving DecidableEq, Repr

/-- `UsageRecord` dataclass. -/
structure UsageRecord where
  record_id : String
  api_key : String
  user_id : String
  job_id : String
  timestamp : Timestamp
  posts_scraped : Int
  comments_included : Bool
  media_included : Bool
  storage_used_mb : ℚ
  cost_usd : ℚ
  pricing_tier : String
  is_overage : Bool
  deriving DecidableEq, Repr

/-- The `ValueError`s `record_usage` can raise. -/
inductive RUErr where
  | accountNotFound
  | subscriptionUnpaid
  | spendingLimitExceeded (currentSpend limit jobCost projected : ℚ)
  deriving DecidableEq, Repr

/-- In-memory state of a `UsageTracker`: the `accounts` dict, the
`api_key_to_user` dict, and the usage records appended to the monthly
`usage_YYYY-MM.jsonl` files (kept as one list; the owning file of a record
is determined by `monthKey record.timestamp`). -/
structure TrackerState where
  accounts : List (String × UserAccount)
  api_key_to_user : List (String × String)
  usage_log : List UsageRecord
  deriving DecidableEq, Repr

/-- `UsageTracker.get_user_from_api_key` without its lock (Python:
`user_id = self.api_key_to_user.get(api_key); if user_id: return
self.accounts.get(user_id); return None` — note the truthiness test, under
which an empty-string user id behaves like an absent one). -/
def get_user_from_api_key (s : TrackerState) (api_key : String) :
    Option UserAccount :=
  match lookupA api_key s.api_key_to_user with
  | some uid => if uid = "" then none else lookupA uid s.accounts
  | none => none

/-- The guard `if account.spending_limit:` followed by
`if projected_total > account.spending_limit:` — Python float truthiness
makes a limit of `None` and a limit of exactly `0.0` both skip the check. -/
def spendingLimitBlocked (a : UserAccount) (overage : ℚ) : Bool :=
  match a.spending_limit with
  | none => false
  | some lim => if lim = 0 then false
      else decide (a.current_month_cost + overage > lim)

/-- The body of `UsageTracker.record_usage` from the subscription check on,
acting on the resolved account: errors are raised before any account field
is written; on success the counters take the computed overage cost and the
credit balance is drawn down afterwards.  `now` stands for `datetime.now()`
and `rid` for the generated `uuid4` record id. -/
def record_usage_core (a : UserAccount) (api_key job_id : String)
    (num_posts : Int) (include_comments include_media : Bool)
    (storage_used_mb : ℚ) (now : Timestamp) (rid : String) :
    Except RUErr (UsageRecord × UserAccount) :=
  if a.subscription_paid = false then
    .error .subscriptionUnpaid
  else
    let cb := calculate_cost num_posts a.pricing_tier include_comments
      include_media a.current_month_posts
    if spendingLimitBlocked a cb.overage then
      .error (.spendingLimitExceeded a.current_month_cost
        (a.spending_limit.getD 0) cb.overage (a.current_month_cost + cb.overage))
    else
      let actual_cost := cb.overage
      let record : UsageRecord :=
        { record_id := rid, api_key := api_key, user_id := a.user_id,
          job_id := job_id, timestamp := now, posts_scraped := num_posts,
          comments_included := include_comments,
          media_included := include_media,
          storage_used_mb := storage_used_mb, cost_usd := actual_cost,
          pricing_tier := a.pricing_tier,
          is_overage := decide (cb.overage_posts > 0) }
      let a₁ : UserAccount := { a with
        total_posts_scraped := a.total_posts_scraped + num_posts,
        total_spent := a.total_spent + actual_cost,
        current_month_posts := a.current_month_posts + num_posts,
        current_month_cost := a.current_month_cost + actual_cost,
        current_month_overage_cost := a.current_month_overage_cost + actual_cost }
      let a₂ : UserAccount :=
        if a₁.credits_balance > 0 ∧ actual_cost > 0 then
          if a₁.credits_balance ≥ actual_cost then
            { a₁ with credits_balance := a₁.credits_balance - actual_cost }
          else
            { a₁ with credits_balance := 0 }
        else a₁
      .ok (record, a₂)

/-- `UsageTracker.record_usage` at the tracker level (sequential view; the
lock-acquisition behaviour is modelled separately below): a raise leaves
the tracker state untouched, a success writes the updated account back and
appends the record to the monthly log. -/
def record_usage (s : TrackerState) (api_key job_id : String)
    (num_posts : Int) (include_comments include_media : Bool)
    (storage_used_mb : ℚ) (now : Timestamp) (rid : String) :
    Except RUErr UsageRecord × TrackerState :=
  match get_user_from_api_key s api_key with
  | none => (.error .accountNotFound, s)
  | some a =>
    match record_usage_core a api_key job_id num_posts include_comments
        include_media storage_used_mb now rid with
    | .error e => (.error e, s)
    | .ok (record, a') =>
      (.ok record,
        { s with
          accounts := setA a.user_id a' s.accounts
          usage_log := s.usage_log ++ [record] })

/-- `UsageTracker.add_credits`: no validation of `amount` whatsoever — any
amount (positive, zero or negative) is added to an existing account's
balance; an unknown account id is a silent no-op. -/
def add_credits (s : TrackerState) (user_id : String) (amount : ℚ) :
    TrackerState :=
  match lookupA user_id s.accounts with
  | some a =>
      let a' : UserAccount := { a with credits_balance := a.credits_balance + amount }
      { s with accounts := setA user_id a' s.accounts }
  | none => s

/-- Result of `UsageTracker.get_monthly_usage`. -/
structure MonthlyUsage where
  year : Int
  month : Int
  total_posts : Int
  overage_posts : Int
  subscription_cost : ℚ
  overage_cost : ℚ
  total_cost : ℚ
  num_jobs : Nat
  records : List UsageRecord
  deriving DecidableEq, Repr

/-- `UsageTracker.get_monthly_usage`: scan the `usage_{year:04d}-{month:02d}`
log (here: the records whose timestamp carries that month key, in append
order), keep the rows of the requested account, and sum posts and cost.
(When the account exists but its tier is not in `TIERS`, Python raises
`KeyError`; the claims never reach that path and the tier lookup is kept
optional here, defaulting the subscription cost to 0 as the code does for a
missing account.) -/
def get_monthly_usage (s : TrackerState) (user_id : String)
    (year month : Int) : MonthlyUsage :=
  let recs := (s.usage_log.filter fun r => monthKey r.timestamp = (year, month)).filter
    fun r => r.user_id = user_id
  let total_posts := (recs.map (·.posts_scraped)).foldr (· + ·) 0
  let overage_posts :=
    ((recs.filter (·.is_overage)).map (·.posts_scraped)).foldr (· + ·) 0
  let total_overage_cost := (recs.map (·.cost_usd)).foldr (· + ·) 0
  let tier_info := (lookupA user_id s.accounts).bind fun a => TIERS a.pricing_tier
  let sub := (tier_info.map (·.monthly_cost)).getD 0
  { year := year, month := month, total_posts := total_posts,
    overage_posts := overage_posts, subscription_cost := sub,
    overage_cost := total_overage_cost, total_cost := sub + total_overage_cost,
    num_jobs := recs.length, records := recs }

/-! ## JobManager (src/job_manager.py) -/

/-- `JobStatus` enumeration. -/
inductive JobStatus where
  | queued
  | running
  | completed
  | failed
  | cancelled
  deriving DecidableEq, Repr

/-- `Job` dataclass (`created_at`/`updated_at` carried as ticks). -/
structure Job where
  job_id : String
  urls : List String
  scrape_type : String
  export_format : String
  include_media : Bool
  include_comments : Bool
  status : JobStatus
  created_at : Int
  updated_at : Int
  total_items : Int
  completed_items : Int
  failed_items : Int
  error : Option String
  deriving DecidableEq, Repr

/-- In-memory state of a `JobManager`: the `jobs` dict. -/
abbrev JMState : Type := List (String × Job)

/-- `JobManager.create_job`: unconditionally builds a fresh job with status
`QUEUED`, `total_items = len(urls)` and zeroed counters, and stores it under
`job_id` — there is no duplicate-id check, so an existing entry with the
same id is overwritten.  Returns the job alongside the new state. -/
def create_job (s : JMState) (job_id : String) (urls : List String)
    (scrape_type export_format : String)
    (include_media include_comments : Bool) (now : Int) : Job × JMState :=
  let job : Job :=
    { job_id := job_id, urls := urls, scrape_type := scrape_type,
      export_format := export_format, include_media := include_media,
      include_comments := include_comments, status := .queued,
      created_at := now, updated_at := now, total_items := urls.length,
      completed_items := 0, failed_items := 0, error := none }
  (job, setA job_id job s)

/-- `JobManager.update_job_status`: when the id is present, overwrite the
status and timestamp unconditionally (no transition validation at all) and,
when `error` is truthy (Python: not `None` and not the empty string),
overwrite the error text; a missing id is a silent no-op. -/
def update_job_status (s : JMState) (job_id : String) (status : JobStatus)
    (error : Option String) (now : Int) : JMState :=
  match lookupA job_id s with
  | some j =>
      let e := match error with
        | some msg => if msg = "" then j.error else some msg
        | none => j.error
      setA job_id { j with status := status, updated_at := now, error := e } s
  | none => s

/-- `JobManager.update_progress`: when the id is present, overwrite the
three counters and the timestamp with exactly the supplied values — no
bounds enforcement; a missing id is a silent no-op. -/
def update_progress (s : JMState) (job_id : String)
    (completed total failed : Int) (now : Int) : JMState :=
  match lookupA job_id s with
  | some j =>
      setA job_id
        { j with completed_items := completed, total_items := total,
                 failed_items := failed, updated_at := now } s
  | none => s

/-- One registry operation of the kinds claim C6 quantifies over. -/
inductive JMOp where
  | create (job_id : String) (urls : List String)
      (scrape_type export_format : String) (include_media include_comments : Bool)
  | updateStatus (job_id : String) (status : JobStatus) (error : Option String)
  | updateProgress (job_id : String) (completed total failed : Int)
  deriving DecidableEq, Repr

/-- Apply one registry operation (the job returned by `create_job` is
dropped; only the state matters for the invariant claims). -/
def applyOp (s : JMState) (op : JMOp) (now : Int) : JMState :=
  match op with
  | .create id urls st ef im ic => (create_job s id urls st ef im ic now).2
  | .updateStatus id status err => update_job_status s id status err now
  | .updateProgress id c t f => update_progress s id c t f now

/-- Apply a timestamped sequence of registry operations in order. -/
def applyOps (s : JMState) : List (JMOp × Int) → JMState
  | [] => s
  | (op, now) :: rest => applyOps (applyOp s op now) rest

/-! ## Lock model (threading.Lock is not reentrant)

`UsageTracker.__init__` creates a single non-reentrant `threading.Lock`.
`record_usage` executes `with self.lock:` and, inside that critical
section, calls `self.get_user_from_api_key`, whose body is again
`with self.lock:` on the same lock.  A second `acquire` of a held
non-reentrant lock from the same thread blocks forever.  We model an
acquisition attempt as a partial step on the lock's held-flag: `none`
stands for blocking forever. -/

/-- Acquire a non-reentrant lock from the thread modelled: succeeds only
when the lock is free; acquiring a lock this thread already holds blocks
forever (`none`). -/
def acquireLock : Bool → Option Bool
  | false => some true
  | true => none

/-- The lock trace of `UsageTracker.get_user_from_api_key`, entered with
the lock state `held`: `with self.lock:` then the dict lookups, then
release. -/
def get_user_from_api_key_locked (held : Bool) (s : TrackerState)
    (api_key : String) : Option (Option UserAccount × Bool) :=
  match acquireLock held with
  | none => none
  | some _ => some (get_user_from_api_key s api_key, false)

/-- The lock trace of `UsageTracker.record_usage`: `with self.lock:` and
then, as its very first statement inside the critical section,
`self.get_user_from_api_key(api_key)` — which acquires the same
non-reentrant lock again.  `none` means the call never returns. -/
def record_usage_locked (s : TrackerState) (api_key job_id : String)
    (num_posts : Int) (include_comments include_media : Bool)
    (storage_used_mb : ℚ) (now : Timestamp) (rid : String) :
    Option (Except RUErr UsageRecord × TrackerState) :=
  match acquireLock false with
  | none => none
  | some held =>
    match get_user_from_api_key_locked held s api_key with
    | none => none
    | some (acct, _) =>
      match acct with
      | none => some (.error .accountNotFound, s)
      | some a =>
        match record_usage_core a api_key job_id num_posts include_comments
            include_media storage_used_mb now rid with
        | .error e => some (.error e, s)
        | .ok (record, a') =>
          some (.ok record,
            { s with
              accounts := setA a.user_id a' s.accounts
              usage_log := s.usage_log ++ [record] })

/-! ## Helper lemmas -/

theorem lookupA_setA_self {α : Type} (k : String) (v : α)
    (l : List (String × α)) : lookupA k (setA k v l) = some v := by
  induction l with
  | nil => simp [setA, lookupA]
  | cons p rest ih =>
    by_cases h : k = p.1
    · simp [setA, h, lookupA]
    · simp [setA, h, lookupA, ih]

theorem mem_setA {α : Type} {p : String × α} {k : String} {v : α}
    {l : List (String × α)} (hp : p ∈ setA k v l) : p = (k, v) ∨ p ∈ l := by
  induction l with
  | nil => simpa [setA] using hp
  | cons q rest ih =>
    by_cases h : k = q.1
    · simp only [setA, if_pos h, List.mem_cons] at hp
      rcases hp with hp | hp
      · exact .inl hp
      · exact .inr (List.mem_cons_of_mem _ hp)
    · simp only [setA, if_neg h, List.mem_cons] at hp
      rcases hp with hp | hp
      · exact .inr (hp ▸ List.mem_cons_self _ _)
      · rcases ih hp with hp | hp
        · exact .inl hp
        · exact .inr (List.mem_cons_of_mem _ hp)

theorem lookupA_mem {α : Type} {k : String} {v : α} {l : List (String × α)}
    (h : lookupA k l = some v) : (k, v) ∈ l := by
  induction l with
  | nil => simp [lookupA] at h
  | cons q rest ih =>
    by_cases hk : k = q.1
    · simp only [lookupA, if_pos hk] at h
      subst hk
      obtain rfl : v = q.2 := by injection h with h; exact h.symm
      exact List.mem_cons_self _ _
    · simp only [lookupA, if_neg hk] at h
      exact List.mem_cons_of_mem _ (ih h)

/-- The configured discount scan reduces, by first-match-wins, to a single
test against the lowest threshold: any total overage of at least 10,000
gets multiplier 0.90, and the steeper 0.85/0.75 rules are unreachable. -/
theorem applyVolumeDiscount_first_match (t : Int) (c : ℚ) :
    applyVolumeDiscount t c VOLUME_DISCOUNTS =
      if 10000 ≤ t then c * (9/10) else c := by
  simp only [VOLUME_DISCOUNTS, applyVolumeDiscount]
  split_ifs <;> first | rfl | omega

theorem roundHalfEven_nonneg {x : ℚ} (hx : 0 ≤ x) : 0 ≤ roundHalfEven x := by
  have h0 : (0:Int) ≤ ⌊x⌋ := Int.floor_nonneg.mpr hx
  simp only [roundHalfEven]
  split_ifs <;> omega

theorem round4_nonneg {x : ℚ} (hx : 0 ≤ x) : 0 ≤ round4 x := by
  have h : (0:Int) ≤ roundHalfEven (x * 10000) :=
    roundHalfEven_nonneg (by positivity)
  unfold round4
  exact div_nonneg (by exact_mod_cast h) (by norm_num)

theorem tierInfoOf_base_price_nonneg (t : String) :
    0 ≤ (tierInfoOf t).base_price := by
  unfold tierInfoOf
  rcases h : TIERS t with _ | ti
  · norm_num
  · unfold TIERS at h
    split at h <;> cases h <;> norm_num

theorem effectiveOverageRate_nonneg (ti : TierInfo) (ic im : Bool)
    (h : 0 ≤ ti.base_price) : 0 ≤ effectiveOverageRate ti ic im := by
  have hc : (0:ℚ) ≤ commentsMultiplier := by norm_num [commentsMultiplier]
  have hm : (0:ℚ) ≤ mediaMultiplier := by norm_num [mediaMultiplier]
  simp only [effectiveOverageRate]
  split_ifs
  · exact mul_nonneg (mul_nonneg h hc) hm
  · exact mul_nonneg h hm
  · exact mul_nonneg h hc
  · exact h

theorem applyVolumeDiscount_nonneg (t : Int) {c : ℚ} (hc : 0 ≤ c) :
    0 ≤ applyVolumeDiscount t c VOLUME_DISCOUNTS := by
  rw [applyVolumeDiscount_first_match]
  split_ifs
  · exact mul_nonneg hc (by norm_num)
  · exact hc

/-- The overage figure `calculate_cost` reports is never negative. -/
theorem calculate_cost_overage_nonneg (n : Int) (t : String) (ic im : Bool)
    (cmp : Int) : 0 ≤ (calculate_cost n t ic im cmp).overage := by
  have hb := tierInfoOf_base_price_nonneg t
  simp only [calculate_cost]
  apply round4_nonneg
  split_ifs with h1 h2
  · exact applyVolumeDiscount_nonneg _
      (mul_nonneg (by exact_mod_cast h1.le)
        (effectiveOverageRate_nonneg _ _ _ hb))
  · exact mul_nonneg (by exact_mod_cast h1.le)
      (effectiveOverageRate_nonneg _ _ _ hb)
  · exact le_refl 0

/-! ## Concrete fixtures used by witnesses and counterexamples -/

/-- A plain account: starter tier, 5.00 of credits, no spending limit. -/
def acct5 : UserAccount :=
  { user_id := "u1", email := "a@b.c", api_keys := ["k1"],
    pricing_tier := "starter", total_posts_scraped := 0, total_spent := 0,
    current_month_posts := 0, current_month_cost := 0,
    current_month_overage_cost := 0, credits_balance := 5,
    billing_cycle_start := ⟨2026, 1, 0⟩, is_active := true,
    spending_limit := none, subscription_paid := true }

/-- A job already in the terminal `COMPLETED` status. -/
def doneJob : Job :=
  { job_id := "j1", urls := ["u1"], scrape_type := "post",
    export_format := "json", include_media := false,
    include_comments := false, status := .completed, created_at := 0,
    updated_at := 0, total_items := 1, completed_items := 1,
    failed_items := 0, error := none }

/-! ## Claim C4 -/

/-- Claim C4 counterexample: with `"j1"` already present (created with two
urls at tick 0), a second `create_job` with the same id does not fail with
`DuplicateId` — it succeeds and silently overwrites the existing job: the
registry afterwards holds the fresh job (one url, created at tick 1). -/
theorem C4_create_job_duplicate_id_overwrites :
    (lookupA "j1"
      (create_job (create_job [] "j1" ["u1", "u2"] "post" "json" false false 0).2
        "j1" ["u3"] "post" "json" false false 1).2).map
      (fun j => (j.total_items, j.status, j.created_at)) =
      some (1, JobStatus.queued, 1) := by decide

/-- Claim C4, amended: `create_job` never fails — for every state, duplicate
id or not, it inserts (overwriting any existing entry) a job with status
`Queued`, `total_items = len(urls)` and zeroed completed/failed counts. -/
theorem C4_create_job_always_inserts (s : JMState) (job_id : String)
    (urls : List String) (st ef : String) (im ic : Bool) (now : Int) :
    (create_job s job_id urls st ef im ic now).1.status = .queued ∧
    (create_job s job_id urls st ef im ic now).1.total_items = urls.length ∧
    (create_job s job_id urls st ef im ic now).1.completed_items = 0 ∧
    (create_job s job_id urls st ef im ic now).1.failed_items = 0 ∧
    lookupA job_id (create_job s job_id urls st ef im ic now).2 =
      some (create_job s job_id urls st ef im ic now).1 := by
  refine ⟨rfl, rfl, rfl, rfl, ?_⟩
  simp [create_job, lookupA_setA_self]

/-! ## Claim C5 -/

/-- Claim C5 counterexample: `add_credits` with the non-positive amount
`-3` does not fail with `InvalidAmount` — it decrements the 5.00 balance
to 2.00. -/
theorem C5_add_credits_accepts_nonpositive :
    (lookupA "u1"
      (add_credits ⟨[("u1", acct5)], [("k1", "u1")], []⟩ "u1" (-3)).accounts).map
      (fun a => a.credits_balance) = some 2 := by
  norm_num [add_credits, acct5, lookupA, setA]

/-- Claim C5, amended: `add_credits` performs no validation of `amount` at
all — for every existing account and every amount, positive or not, it
increments the balance by exactly that amount (the `amount ≤ 0` rejection
exists only in the HTTP layer, not in the ledger operation). -/
theorem C5_add_credits_unvalidated_increment (s : TrackerState)
    (uid : String) (amount : ℚ) (a : UserAccount)
    (h : lookupA uid s.accounts = some a) :
    lookupA uid (add_credits s uid amount).accounts =
      some { a with credits_balance := a.credits_balance + amount } := by
  simp [add_credits, h, lookupA_setA_self]

/-- Claim C5 witness: the amended statement applied to a concrete account
holding 5.00 of credits and the amount `-3`. -/
theorem C5_add_credits_unvalidated_increment_witness :
    lookupA "u1"
      (add_credits ⟨[("u1", acct5)], [("k1", "u1")], []⟩ "u1" (-3)).accounts =
      some { acct5 with credits_balance := acct5.credits_balance + (-3) } :=
  C5_add_credits_unvalidated_increment _ "u1" (-3) acct5 rfl

/-! ## Claim C7 -/

/-- Claim C7 counterexample: a job in the terminal status `COMPLETED` does
have an outgoing transition under `update_job_status` — the registry moves
it straight to `RUNNING`. -/
theorem C7_terminal_status_exits :
    doneJob.status = JobStatus.completed ∧
    (lookupA "j1" (update_job_status [("j1", doneJob)] "j1" .running none 5)).map
      (fun j => j.status) = some JobStatus.running := by decide

/-- Claim C7, amended: `update_job_status` overwrites the status of every
existing job with exactly the supplied status, whatever the current status
is — terminal states included; the registry enforces no transition graph. -/
theorem C7_update_status_unconditional (s : JMState) (id : String)
    (st : JobStatus) (err : Option String) (now : Int) (j : Job)
    (h : lookupA id s = some j) :
    (lookupA id (update_job_status s id st err now)).map (fun x => x.status) =
      some st := by
  simp [update_job_status, h, lookupA_setA_self]

/-- Claim C7 witness: the amended statement applied to a registry holding a
`COMPLETED` job, moved to `RUNNING`. -/
theorem C7_update_status_unconditional_witness :
    (lookupA "j1" (update_job_status [("j1", doneJob)] "j1" .running none 5)).map
      (fun x => x.status) = some JobStatus.running :=
  C7_update_status_unconditional _ _ _ _ _ doneJob rfl

/-! ## Claim C6 -/

/-- `completed_items + failed_items ≤ total_items` for one job. -/
def jobCountersOk (j : Job) : Prop :=
  j.completed_items + j.failed_items ≤ j.total_items

instance (j : Job) : Decidable (jobCountersOk j) := by
  unfold jobCountersOk; infer_instance

/-- The claimed registry invariant: every stored job has
`completed_items + failed_items ≤ total_items`. -/
def registryInv (s : JMState) : Prop := ∀ p ∈ s, jobCountersOk p.2

instance (s : JMState) : Decidable (registryInv s) := by
  unfold registryInv; exact List.decidableBAll _ s

/-- An operation whose arguments respect the counter bound: `updateProgress`
must be called with `completed + failed ≤ total`; `create` and
`updateStatus` are unrestricted. -/
def goodOp : JMOp → Prop
  | .updateProgress _ c t f => c + f ≤ t
  | _ => True

instance : (op : JMOp) → Decidable (goodOp op)
  | .create .. => inferInstanceAs (Decidable True)
  | .updateStatus .. => inferInstanceAs (Decidable True)
  | .updateProgress _ c t f => inferInstanceAs (Decidable (c + f ≤ t))

theorem applyOp_preserves_inv (s : JMState) (op : JMOp) (now : Int)
    (hs : registryInv s) (hop : goodOp op) :
    registryInv (applyOp s op now) := by
  cases op with
  | create id urls st ef im ic =>
    intro p hp
    rcases mem_setA (by simpa [applyOp, create_job] using hp) with hp' | hp'
    · subst hp'
      simp only [jobCountersOk]
      omega
    · exact hs p hp'
  | updateStatus id st err =>
    intro p hp
    simp only [applyOp] at hp
    unfold update_job_status at hp
    split at hp
    next j hj =>
      rcases mem_setA hp with hp' | hp'
      · have hmem := hs _ (lookupA_mem hj)
        subst hp'
        simpa [jobCountersOk] using hmem
      · exact hs p hp'
    next => exact hs p hp
  | updateProgress id c t f =>
    intro p hp
    simp only [applyOp] at hp
    unfold update_progress at hp
    split at hp
    next j hj =>
      rcases mem_setA hp with hp' | hp'
      · subst hp'
        simpa [jobCountersOk] using hop
      · exact hs p hp'
    next => exact hs p hp

/-- Claim C6 counterexample: the registry does not uphold the invariant
against every operation sequence — `create` with one url followed by
`update_progress(completed=2, total=1, failed=1)` leaves a state with
`completed_items + failed_items = 3 > 1 = total_items`. -/
theorem C6_progress_invariant_violable :
    ¬ registryInv (applyOps []
      [(JMOp.create "j1" ["u1"] "post" "json" false false, 0),
       (JMOp.updateProgress "j1" 2 1 1, 1)]) := by decide

/-- Claim C6, amended: the invariant `completed_items + failed_items ≤
total_items` holds at every observed state provided every `updateProgress`
in the sequence is called with `completed + failed ≤ total` (the registry
stores the supplied counters verbatim, with no bounds enforcement of its
own; `create` and `updateStatus` preserve the invariant unconditionally). -/
theorem C6_invariant_under_bounded_progress (s : JMState)
    (l : List (JMOp × Int)) (hs : registryInv s)
    (hl : ∀ q ∈ l, goodOp q.1) : registryInv (applyOps s l) := by
  induction l generalizing s with
  | nil => simpa [applyOps] using hs
  | cons q rest ih =>
    obtain ⟨op, now⟩ := q
    simp only [applyOps]
    exact ih (applyOp s op now)
      (applyOp_preserves_inv s op now hs (hl _ (List.mem_cons_self _ _)))
      (fun r hr => hl r (List.mem_cons_of_mem _ hr))

/-- Claim C6 witness: the amended statement applied to a concrete sequence
whose `updateProgress` call respects the bound (1 + 1 ≤ 2). -/
theorem C6_invariant_under_bounded_progress_witness :
    registryInv (applyOps []
      [(JMOp.create "j1" ["u1", "u2"] "post" "json" false false, 0),
       (JMOp.updateProgress "j1" 1 2 1, 1)]) :=
  C6_invariant_under_bounded_progress [] _ (by decide) (by decide)

/-! ## Claim C3 -/

/-- Claim C3: `calculate_cost` applies the discount multiplier of the first
volume-discount threshold (scanning the ascending thresholds 10,000 /
50,000 / 100,000) that the total overage meets or exceeds and stops
scanning — so any qualifying total gets exactly the 0.90 multiplier and
none gets a steeper one — and in particular
`calculate_cost(12000, "starter", false, false, 0)` yields
`overage_posts = 11000` and `overage = 11000 × 0.01 × 0.90 = 99.0000`. -/
theorem C3_first_matching_volume_discount :
    (∀ (t : Int) (c : ℚ), 10000 ≤ t →
      applyVolumeDiscount t c VOLUME_DISCOUNTS = c * (9/10)) ∧
    (∀ (t : Int) (c : ℚ), t < 10000 →
      applyVolumeDiscount t c VOLUME_DISCOUNTS = c) ∧
    calculate_cost 12000 "starter" false false 0 =
      { subscription := 10, overage := 99, total := 109,
        included_used := 1000, overage_posts := 11000 } := by
  refine ⟨?_, ?_, ?_⟩
  · intro t c ht
    rw [applyVolumeDiscount_first_match, if_pos ht]
  · intro t c ht
    rw [applyVolumeDiscount_first_match, if_neg (by omega)]
  · norm_num [calculate_cost, tierInfoOf, TIERS, effectiveOverageRate,
      round4, roundHalfEven, applyVolumeDiscount, VOLUME_DISCOUNTS, pyMin,
      pyMax, commentsMultiplier, mediaMultiplier, CostBreakdown.mk.injEq]

/-- Claim C3 witness: a total overage of 120,000 — beyond all three
thresholds — still gets only the first multiplier 0.90, and a total of
5,000 gets none. -/
theorem C3_first_matching_volume_discount_witness :
    applyVolumeDiscount 120000 (100:ℚ) VOLUME_DISCOUNTS = 100 * (9/10) ∧
    applyVolumeDiscount 5000 (50:ℚ) VOLUME_DISCOUNTS = 50 :=
  ⟨C3_first_matching_volume_discount.1 120000 100 (by norm_num),
   C3_first_matching_volume_discount.2.1 5000 50 (by norm_num)⟩

/-! ## Claim C9 -/

/-- Claim C9 (code bug in the source): `record_usage` can never return —
it takes the tracker's single non-reentrant lock and then immediately
calls `get_user_from_api_key`, which tries to take the same lock again, so
every call blocks forever, for every tracker state and every argument
list. The spec's promises that `recordUsage` executes as one atomic
operation and that no operation blocks indefinitely are both violated. -/
theorem C9_record_usage_deadlocks (s : TrackerState) (api_key job_id : String)
    (num_posts : Int) (ic im : Bool) (smb : ℚ) (now : Timestamp)
    (rid : String) :
    record_usage_locked s api_key job_id num_posts ic im smb now rid =
      none := rfl

/-! ## Claim C10 -/

/-- Claim C10: an account whose `spending_limit` is exactly 0 can never be
rejected with `SpendingLimitExceeded`, whatever the computed cost of the
job — the check is guarded by Python float truthiness, so a zero limit
behaves like no limit at all. -/
theorem C10_zero_spending_limit_never_blocks (a : UserAccount)
    (api_key job_id : String) (num_posts : Int) (ic im : Bool) (smb : ℚ)
    (now : Timestamp) (rid : String) (h : a.spending_limit = some 0)
    (w x y z : ℚ) :
    record_usage_core a api_key job_id num_posts ic im smb now rid ≠
      Except.error (RUErr.spendingLimitExceeded w x y z) := by
  have hb : spendingLimitBlocked a
      (calculate_cost num_posts a.pricing_tier ic im
        a.current_month_posts).overage = false := by
    simp [spendingLimitBlocked, h]
  simp only [record_usage_core, hb]
  split_ifs <;> simp_all

/-- Claim C10 witness: a concrete account with `spending_limit = 0`,
current-month cost 100 and a job costing 99 — yet no
`SpendingLimitExceeded`. -/
theorem C10_zero_spending_limit_never_blocks_witness :
    record_usage_core
        { acct5 with spending_limit := some 0, current_month_cost := 100 }
        "k1" "j1" 12000 false false 0 ⟨2026, 1, 3⟩ "r1" ≠
      Except.error (RUErr.spendingLimitExceeded 100 0 99 199) :=
  C10_zero_spending_limit_never_blocks _ "k1" "j1" 12000 false false 0
    ⟨2026, 1, 3⟩ "r1" rfl 100 0 99 199

/-! ## Claim C1 -/

/-- An account at the edge of its spending limit: limit 10.00, current
month cost 9.00, starter tier with the 1,000 included posts used up. -/
def acct1 : UserAccount :=
  { user_id := "u1", email := "a@b.c", api_keys := ["k1"],
    pricing_tier := "starter", total_posts_scraped := 1000,
    total_spent := 9, current_month_posts := 1000, current_month_cost := 9,
    current_month_overage_cost := 9, credits_balance := 0,
    billing_cycle_start := ⟨2026, 1, 0⟩, is_active := true,
    spending_limit := some 10, subscription_paid := true }

/-- Tracker holding exactly `acct1` under key `"k1"`. -/
def trk1 : TrackerState := ⟨[("u1", acct1)], [("k1", "u1")], []⟩

/-- Claim C1: when a (truthy) spending limit is set and the current month
cost plus the job's computed overage cost strictly exceeds it,
`record_usage` fails with `SpendingLimitExceeded` — carrying the current
spend, the limit, the job's cost and the projected total — and the whole
tracker state (accounts and usage log alike) is returned unchanged. -/
theorem C1_record_usage_spending_limit_error_no_mutation
    (s : TrackerState) (api_key job_id : String) (num_posts : Int)
    (ic im : Bool) (smb : ℚ) (now : Timestamp) (rid : String)
    (a : UserAccount) (lim : ℚ)
    (ha : get_user_from_api_key s api_key = some a)
    (hpaid : a.subscription_paid = true)
    (hlim : a.spending_limit = some lim) (hne : lim ≠ 0)
    (hover : lim < a.current_month_cost +
      (calculate_cost num_posts a.pricing_tier ic im
        a.current_month_posts).overage) :
    record_usage s api_key job_id num_posts ic im smb now rid =
      (Except.error (RUErr.spendingLimitExceeded a.current_month_cost lim
        (calculate_cost num_posts a.pricing_tier ic im
          a.current_month_posts).overage
        (a.current_month_cost +
          (calculate_cost num_posts a.pricing_tier ic im
            a.current_month_posts).overage)), s) := by
  have hb : spendingLimitBlocked a
      (calculate_cost num_posts a.pricing_tier ic im
        a.current_month_posts).overage = true := by
    simp only [spendingLimitBlocked, hlim, if_neg hne, decide_eq_true_eq]
    exact hover
  simp only [record_usage, ha, record_usage_core, hpaid, hb,
    Bool.true_eq_false, if_false, if_true, hlim, Option.getD_some]

/-- Claim C1 witness: the spec's concrete instance — limit 10.00, current
month cost 9.00, a 200-post starter job costing 2.00; projected 11.00
exceeds the limit, the call fails with `SpendingLimitExceeded(9, 10, 2,
11)`, and the tracker state (hence `current_month_cost = 9.00`) is
untouched. -/
theorem C1_record_usage_spending_limit_error_no_mutation_witness :
    record_usage trk1 "k1" "j9" 200 false false 0 ⟨2026, 1, 5⟩ "r9" =
      (Except.error (RUErr.spendingLimitExceeded 9 10 2 11), trk1) ∧
    (lookupA "u1" trk1.accounts).map (fun u => u.current_month_cost) =
      some 9 := by
  have h := C1_record_usage_spending_limit_error_no_mutation trk1 "k1" "j9"
    200 false false 0 ⟨2026, 1, 5⟩ "r9" acct1 10 rfl rfl rfl (by norm_num)
    (by norm_num [acct1, calculate_cost, tierInfoOf, TIERS,
      effectiveOverageRate, round4, roundHalfEven, applyVolumeDiscount,
      VOLUME_DISCOUNTS, pyMin, pyMax, commentsMultiplier, mediaMultiplier])
  rw [h]
  refine ⟨?_, by norm_num [trk1, acct1, lookupA]⟩
  norm_num [acct1, calculate_cost, tierInfoOf, TIERS, effectiveOverageRate,
    round4, roundHalfEven, applyVolumeDiscount, VOLUME_DISCOUNTS, pyMin,
    pyMax, commentsMultiplier, mediaMultiplier]

/-! ## Claim C2 -/

/-- Claim C2: on every successful `record_usage` the lifetime and
current-cycle cost counters (`total_spent`, `current_month_cost`,
`current_month_overage_cost`) each grow by the computed pre-credit overage
cost, while the credit balance is independently drawn down by that same
cost, floored at zero. -/
theorem C2_record_usage_success_counters_and_credits
    (a : UserAccount) (api_key job_id : String) (num_posts : Int)
    (ic im : Bool) (smb : ℚ) (now : Timestamp) (rid : String)
    (rec : UsageRecord) (a' : UserAccount)
    (hcred : 0 ≤ a.credits_balance)
    (hok : record_usage_core a api_key job_id num_posts ic im smb now rid =
      Except.ok (rec, a')) :
    a'.total_spent = a.total_spent +
      (calculate_cost num_posts a.pricing_tier ic im
        a.current_month_posts).overage ∧
    a'.current_month_cost = a.current_month_cost +
      (calculate_cost num_posts a.pricing_tier ic im
        a.current_month_posts).overage ∧
    a'.current_month_overage_cost = a.current_month_overage_cost +
      (calculate_cost num_posts a.pricing_tier ic im
        a.current_month_posts).overage ∧
    a'.credits_balance =
      max (a.credits_balance -
        (calculate_cost num_posts a.pricing_tier ic im
          a.current_month_posts).overage) 0 := by
  have hcnn : 0 ≤ (calculate_cost num_posts a.pricing_tier ic im
      a.current_month_posts).overage :=
    calculate_cost_overage_nonneg _ _ _ _ _
  simp only [record_usage_core] at hok
  split at hok
  · exact absurd hok (by simp)
  · split at hok
    · exact absurd hok (by simp)
    · simp only [Except.ok.injEq, Prod.mk.injEq] at hok
      obtain ⟨hrec, ha'⟩ := hok
      subst ha'
      refine ⟨?_, ?_, ?_, ?_⟩
      · split_ifs <;> rfl
      · split_ifs <;> rfl
      · split_ifs <;> rfl
      · split_ifs with h1 h2 <;> dsimp only at h1 ⊢ <;> try dsimp only at h2
        · exact (max_eq_left (by linarith)).symm
        · have := not_le.mp h2
          exact (max_eq_right (by linarith)).symm
        · rcases le_or_lt a.credits_balance 0 with hcb | hcb
          · have hz : a.credits_balance = 0 := le_antisymm hcb hcred
            rw [hz, zero_sub]
            exact (max_eq_right (by linarith)).symm
          · have hcz : ¬ ((calculate_cost num_posts a.pricing_tier ic im
                a.current_month_posts).overage > 0) :=
              fun hcpos => h1 ⟨hcb, hcpos⟩
            have hc0 := le_antisymm (not_lt.mp hcz) hcnn
            rw [hc0, sub_zero]
            exact (max_eq_left hcred).symm

/-- `acct5` with its 1,000 included starter posts already consumed, so a
300-post job is pure overage costing 3.00 against the 5.00 of credits. -/
def acct2 : UserAccount := { acct5 with current_month_posts := 1000 }

/-- The usage record produced by the witness call for claim C2. -/
def rec2 : UsageRecord :=
  ⟨"r2", "k1", "u1", "j2", ⟨2026, 1, 9⟩, 300, false, false, 0, 3,
    "starter", true⟩

/-- `acct2` after recording the 300-post job: counters up by 3.00, credits
drawn down from 5.00 to 2.00. -/
def acct2' : UserAccount :=
  { acct5 with
    total_posts_scraped := 300, total_spent := 3,
    current_month_posts := 1300, current_month_cost := 3,
    current_month_overage_cost := 3, credits_balance := 2 }

/-- Claim C2 witness: the spec's concrete instance — credits 5.00, job
cost 3.00; `total_spent` grows by the computed 3.00 while the balance ends
at 2.00 (`max (5 − 3) 0`). -/
theorem C2_record_usage_success_counters_and_credits_witness :
    (0:ℚ) ≤ acct2.credits_balance ∧
    acct2'.total_spent = acct2.total_spent +
      (calculate_cost 300 acct2.pricing_tier false false
        acct2.current_month_posts).overage ∧
    acct2'.credits_balance =
      max (acct2.credits_balance -
        (calculate_cost 300 acct2.pricing_tier false false
          acct2.current_month_posts).overage) 0 := by
  have h := C2_record_usage_success_counters_and_credits acct2 "k1" "j2" 300
    false false 0 ⟨2026, 1, 9⟩ "r2" rec2 acct2' (by norm_num [acct2, acct5])
    (by norm_num [record_usage_core, spendingLimitBlocked, calculate_cost,
      tierInfoOf, TIERS, effectiveOverageRate, round4, roundHalfEven,
      applyVolumeDiscount, VOLUME_DISCOUNTS, pyMin, pyMax,
      commentsMultiplier, mediaMultiplier, acct2, acct5, rec2, acct2',
      Except.ok.injEq, Prod.mk.injEq, UserAccount.mk.injEq,
      UsageRecord.mk.injEq])
  exact ⟨by norm_num [acct2, acct5], h.1, h.2.2.2⟩

/-! ## Claim C8 -/

/-- Claim C8: every usage record a successful `record_usage` returns is
retrievable — the very same record, all fields intact — from
`get_monthly_usage` queried with the record's own account id and its
timestamp's year and month. -/
theorem C8_usage_record_round_trip (s : TrackerState)
    (api_key job_id : String) (num_posts : Int) (ic im : Bool) (smb : ℚ)
    (now : Timestamp) (rid : String) (rec : UsageRecord) (s' : TrackerState)
    (hok : record_usage s api_key job_id num_posts ic im smb now rid =
      (Except.ok rec, s')) :
    rec ∈ (get_monthly_usage s' rec.user_id rec.timestamp.year
      rec.timestamp.month).records := by
  unfold record_usage at hok
  split at hok
  · exact absurd hok (by simp)
  next a ha =>
    split at hok
    · exact absurd hok (by simp)
    next record a' hcore =>
      simp only [Prod.mk.injEq, Except.ok.injEq] at hok
      obtain ⟨hrec, hs'⟩ := hok
      subst hrec
      subst hs'
      simp only [get_monthly_usage]
      apply List.mem_filter.mpr
      refine ⟨List.mem_filter.mpr ⟨List.mem_append_right _ (by simp), ?_⟩, by simp⟩
      simp [monthKey]

/-- `acct5` after the 10-post witness job for claim C8 (all within the
included allowance, so every cost counter stays 0). -/
def acct8' : UserAccount :=
  { acct5 with total_posts_scraped := 10, current_month_posts := 10 }

/-- The usage record produced by the witness call for claim C8. -/
def rec3 : UsageRecord :=
  ⟨"r3", "k1", "u1", "j3", ⟨2026, 2, 7⟩, 10, false, false, 0, 0,
    "starter", false⟩

/-- Tracker holding `acct5` before the claim C8 witness call. -/
def trk8 : TrackerState := ⟨[("u1", acct5)], [("k1", "u1")], []⟩

/-- `trk8` after the witness call: account counters advanced and `rec3`
appended to the February 2026 log. -/
def trk8' : TrackerState := ⟨[("u1", acct8')], [("k1", "u1")], [rec3]⟩

/-- Claim C8 witness: a concrete successful call whose record `rec3` is
found unchanged in the February 2026 query for its account. -/
theorem C8_usage_record_round_trip_witness :
    rec3 ∈ (get_monthly_usage trk8' rec3.user_id rec3.timestamp.year
      rec3.timestamp.month).records :=
  C8_usage_record_round_trip trk8 "k1" "j3" 10 false false 0 ⟨2026, 2, 7⟩
    "r3" rec3 trk8'
    (by
      have hk : get_user_from_api_key trk8 "k1" = some acct5 := rfl
      have hcore : record_usage_core acct5 "k1" "j3" 10 false false 0
          ⟨2026, 2, 7⟩ "r3" = Except.ok (rec3, acct8') := by
        norm_num [record_usage_core, spendingLimitBlocked, calculate_cost,
          tierInfoOf, TIERS, effectiveOverageRate, round4, roundHalfEven,
          applyVolumeDiscount, VOLUME_DISCOUNTS, pyMin, pyMax,
          commentsMultiplier, mediaMultiplier, acct5, acct8', rec3,
          Except.ok.injEq, Prod.mk.injEq, UserAccount.mk.injEq,
          UsageRecord.mk.injEq]
      simp only [record_usage, hk, hcore]
      simp [trk8, trk8', setA, acct5])

end InstaScraper
